import Mathlib

/-!
Verification of the chat_box_v2 real-time core against its specification.

The definitions below are shallow embeddings of the C++ source:
* `WebRTCHandler` (src/backend/server/src/handlers/webrtc_handler.cpp):
  call-signaling state machine over `calls_` and `userCalls_`.
* `WebSocketServer` (src/backend/server/src/websocket/websocket_server.cpp):
  connection registry, `sendToUser`, `broadcastToRoom`, the message
  dispatch switch, the `call_init` frame branch and the close handler.
* `FileHandler` (src/backend/server/src/handlers/file_handler.cpp):
  chunked upload pipeline over `activeUploads` and the temp chunk files.

C++ `std::unordered_map` instances are modelled as association lists with
unique keys; iteration order of a map is modelled by list order (the C++
order is unspecified).  Wall-clock reads, generated ids and the external
room-membership store are passed in as explicit parameters.
-/

/-! ### Association-list maps (model of `std::unordered_map`) -/

def mapErase {κ α : Type} [DecidableEq κ] (k : κ) :
    List (κ × α) → List (κ × α)
  | [] => []
  | (k', v) :: m => if k' = k then mapErase k m else (k', v) :: mapErase k m

def mapInsert {κ α : Type} [DecidableEq κ] (k : κ) (v : α) (m : List (κ × α)) :
    List (κ × α) :=
  (k, v) :: mapErase k m

def lookupM {κ α : Type} [DecidableEq κ] (k : κ) : List (κ × α) → Option α
  | [] => none
  | (k', v) :: m => if k' = k then some v else lookupM k m

/-! ### WebRTC call-signaling state machine
    (src/handlers/webrtc_handler.cpp / include/handlers/webrtc_handler.h) -/

inductive CallState
  | IDLE | CALLING | RINGING | CONNECTING | CONNECTED | ENDED
deriving DecidableEq

inductive CallType
  | AUDIO | VIDEO | SCREEN_SHARE
deriving DecidableEq

structure Participant where
  userId : String
  hasVideo : Bool
  hasAudio : Bool
  isMuted : Bool
  isScreenSharing : Bool
deriving DecidableEq

structure CallSession where
  callId : String
  roomId : String
  type : CallType
  state : CallState
  initiatorId : String
  participants : List Participant
  startedAt : Nat
  connectedAt : Nat
deriving DecidableEq

/-- The two maps owned by `WebRTCHandler`: `calls_` (callId → session) and
`userCalls_` (userId → callId). -/
structure WebRTCState where
  calls : List (String × CallSession)
  userCalls : List (String × String)
deriving DecidableEq

/-- A signal handed to `sendSignal(targetUserId, signalType, data)`:
the target user id plus the payload fields the handler serializes. -/
inductive SignalData
  | callIncoming (callId callerId callerName : String) (ty : CallType) (isGroup : Bool)
  | callAccepted (callId userId : String)
  | callRejected (callId userId reason : String)
  | callEnded (callId endedBy : String) (duration : Nat)
  | webrtcOffer (callId fromUserId sdp : String)
  | webrtcAnswer (callId fromUserId sdp : String)
  | webrtcIce (callId fromUserId candidate : String)
  | media (signalType callId userId : String) (value : Bool)
deriving DecidableEq

structure Signal where
  target : String
  data : SignalData
deriving DecidableEq

/-- Outcome of a handler call.  The C++ functions return a display string;
what distinguishes the branches is which error (if any) was taken. -/
inductive CallResult
  | ok
  | errAlreadyInCall   -- "You're already in a call! End it first."
  | errNotFound        -- "Call not found!" / "No active call!"
  | errInvalidState    -- "Call is not in ringing state!"
  | errNotInCall       -- "You're not in this call!"
deriving DecidableEq

/-- `WebRTCHandler::initiateCall`.  `newCallId` stands for `generateCallId()`
and `now` for the wall-clock read. -/
def initiateCall (st : WebRTCState) (callerId callerName targetId : String)
    (ty : CallType) (isGroupCall : Bool) (newCallId : String) (now : Nat) :
    WebRTCState × List Signal × CallResult :=
  if (lookupM callerId st.userCalls).isSome then
    (st, [], .errAlreadyInCall)
  else
    let caller : Participant :=
      { userId := callerId
        hasVideo := ty = CallType.VIDEO
        hasAudio := true
        isMuted := false
        isScreenSharing := ty = CallType.SCREEN_SHARE }
    let session : CallSession :=
      { callId := newCallId
        roomId := if isGroupCall then targetId else ""
        type := ty
        state := .CALLING
        initiatorId := callerId
        participants := [caller]
        startedAt := now
        connectedAt := 0 }
    ({ calls := mapInsert newCallId session st.calls
       userCalls := mapInsert callerId newCallId st.userCalls },
     [⟨targetId, .callIncoming newCallId callerId callerName ty isGroupCall⟩],
     .ok)

/-- `WebRTCHandler::acceptCall`. -/
def acceptCall (st : WebRTCState) (callId userId : String) :
    WebRTCState × List Signal × CallResult :=
  match lookupM callId st.calls with
  | none => (st, [], .errNotFound)
  | some session =>
    if session.state ≠ CallState.CALLING then
      (st, [], .errInvalidState)
    else
      let participant : Participant :=
        { userId := userId
          hasVideo := session.type = CallType.VIDEO
          hasAudio := true
          isMuted := false
          isScreenSharing := false }
      let session' := { session with
        participants := session.participants ++ [participant]
        state := .CONNECTING }
      ({ calls := mapInsert callId session' st.calls
         userCalls := mapInsert userId callId st.userCalls },
       [⟨session.initiatorId, .callAccepted callId userId⟩],
       .ok)

/-- `WebRTCHandler::rejectCall`.  The cleanup erases only the initiator's
`userCalls_` entry before deleting the session. -/
def rejectCall (st : WebRTCState) (callId userId reason : String) :
    WebRTCState × List Signal × CallResult :=
  match lookupM callId st.calls with
  | none => (st, [], .errNotFound)
  | some session =>
    ({ calls := mapErase callId st.calls
       userCalls := mapErase session.initiatorId st.userCalls },
     [⟨session.initiatorId, .callRejected callId userId reason⟩],
     .ok)

/-- The `uint64_t duration` computed by `WebRTCHandler::endCall`:
`now - session.connectedAt` in wrapping 64-bit arithmetic when
`connectedAt > 0`, and `0` otherwise.  Both operands are below `2^64`. -/
def endCallDuration (connectedAt now : Nat) : Nat :=
  if connectedAt > 0 then (now + 2 ^ 64 - connectedAt) % 2 ^ 64 else 0

/-- `WebRTCHandler::endCall`: notify every other participant with the
duration, erase every participant's `userCalls_` entry, delete the session. -/
def endCall (st : WebRTCState) (callId userId : String) (now : Nat) :
    WebRTCState × List Signal × CallResult :=
  match lookupM callId st.calls with
  | none => (st, [], .errNotFound)
  | some session =>
    let duration := endCallDuration session.connectedAt now
    let signals :=
      (session.participants.filter (fun p => p.userId ≠ userId)).map
        (fun p => (⟨p.userId, .callEnded callId userId duration⟩ : Signal))
    let userCalls' :=
      session.participants.foldl (fun m p => mapErase p.userId m) st.userCalls
    ({ calls := mapErase callId st.calls, userCalls := userCalls' },
     signals, .ok)

/-- `WebRTCHandler::sendOffer`: pure relay, no state change. -/
def sendOffer (st : WebRTCState) (callId fromUserId toUserId sdpOffer : String) :
    WebRTCState × List Signal :=
  (st, [⟨toUserId, .webrtcOffer callId fromUserId sdpOffer⟩])

/-- `WebRTCHandler::sendAnswer`: if the session exists it is marked
CONNECTED and `connectedAt` is stamped with the wall clock, then the
payload is relayed. -/
def sendAnswer (st : WebRTCState) (callId fromUserId toUserId sdpAnswer : String)
    (now : Nat) : WebRTCState × List Signal :=
  let st' :=
    match lookupM callId st.calls with
    | none => st
    | some session =>
      let session' := { session with state := CallState.CONNECTED, connectedAt := now }
      { st with calls := mapInsert callId session' st.calls }
  (st', [⟨toUserId, .webrtcAnswer callId fromUserId sdpAnswer⟩])

/-- `WebRTCHandler::sendIceCandidate`: pure relay, no state change. -/
def sendIceCandidate (st : WebRTCState)
    (callId fromUserId toUserId candidate : String) :
    WebRTCState × List Signal :=
  (st, [⟨toUserId, .webrtcIce callId fromUserId candidate⟩])

/-- The `for (auto& p : session.participants)` loops of the media controls:
mutate the first participant with the given user id. -/
def updateFirstParticipant (userId : String) (f : Participant → Participant) :
    List Participant → List Participant
  | [] => []
  | p :: ps =>
    if p.userId = userId then f p :: ps
    else p :: updateFirstParticipant userId f ps

/-- `WebRTCHandler::broadcastToParticipants`. -/
def broadcastToParticipants (session : CallSession) (signalType : String)
    (callId userId : String) (value : Bool) (excludeUserId : String) :
    List Signal :=
  (session.participants.filter (fun p => p.userId ≠ excludeUserId)).map
    (fun p => (⟨p.userId, .media signalType callId userId value⟩ : Signal))

/-- Common shape of `toggleMute` / `toggleVideo` / `startScreenShare` /
`stopScreenShare`: find the caller's participant record, update it with `f`,
broadcast the new flag `readFlag` to the other participants. -/
def mediaControl (st : WebRTCState) (callId userId : String)
    (signalType : String) (f : Participant → Participant)
    (readFlag : Participant → Bool) :
    WebRTCState × List Signal × CallResult :=
  match lookupM callId st.calls with
  | none => (st, [], .errNotFound)
  | some session =>
    match session.participants.find? (fun p => p.userId = userId) with
    | none => (st, [], .errNotInCall)
    | some p =>
      let session' := { session with
        participants := updateFirstParticipant userId f session.participants }
      ({ st with calls := mapInsert callId session' st.calls },
       broadcastToParticipants session' signalType callId userId
         (readFlag (f p)) userId,
       .ok)

/-- `WebRTCHandler::toggleMute`. -/
def toggleMute (st : WebRTCState) (callId userId : String) :
    WebRTCState × List Signal × CallResult :=
  mediaControl st callId userId "media_mute"
    (fun p => { p with isMuted := !p.isMuted }) (fun p => p.isMuted)

/-- `WebRTCHandler::toggleVideo`. -/
def toggleVideo (st : WebRTCState) (callId userId : String) :
    WebRTCState × List Signal × CallResult :=
  mediaControl st callId userId "media_video"
    (fun p => { p with hasVideo := !p.hasVideo }) (fun p => p.hasVideo)

/-- `WebRTCHandler::startScreenShare`. -/
def startScreenShare (st : WebRTCState) (callId userId : String) :
    WebRTCState × List Signal × CallResult :=
  mediaControl st callId userId "media_screen"
    (fun p => { p with isScreenSharing := true }) (fun p => p.isScreenSharing)

/-- `WebRTCHandler::stopScreenShare`. -/
def stopScreenShare (st : WebRTCState) (callId userId : String) :
    WebRTCState × List Signal × CallResult :=
  mediaControl st callId userId "media_screen"
    (fun p => { p with isScreenSharing := false }) (fun p => p.isScreenSharing)

/-- `WebRTCHandler::hasActiveCall`. -/
def hasActiveCall (st : WebRTCState) (userId : String) : Bool :=
  (lookupM userId st.userCalls).isSome

/-! ### Reachable sequences of call-signaling operations -/

/-- One public operation of `WebRTCHandler`, with the generated call id and
wall-clock reads made explicit. -/
inductive CallOp
  | init (callerId callerName targetId : String) (ty : CallType)
      (isGroup : Bool) (newCallId : String) (now : Nat)
  | accept (callId userId : String)
  | reject (callId userId reason : String)
  | offer (callId fromUserId toUserId sdp : String)
  | answer (callId fromUserId toUserId sdp : String) (now : Nat)
  | ice (callId fromUserId toUserId candidate : String)
  | mute (callId userId : String)
  | video (callId userId : String)
  | screenOn (callId userId : String)
  | screenOff (callId userId : String)
  | hangup (callId userId : String) (now : Nat)

/-- State effect of one operation. -/
def applyCallOp (st : WebRTCState) : CallOp → WebRTCState
  | .init callerId callerName targetId ty isGroup newCallId now =>
    (initiateCall st callerId callerName targetId ty isGroup newCallId now).1
  | .accept callId userId => (acceptCall st callId userId).1
  | .reject callId userId reason => (rejectCall st callId userId reason).1
  | .offer callId fromUserId toUserId sdp =>
    (sendOffer st callId fromUserId toUserId sdp).1
  | .answer callId fromUserId toUserId sdp now =>
    (sendAnswer st callId fromUserId toUserId sdp now).1
  | .ice callId fromUserId toUserId candidate =>
    (sendIceCandidate st callId fromUserId toUserId candidate).1
  | .mute callId userId => (toggleMute st callId userId).1
  | .video callId userId => (toggleVideo st callId userId).1
  | .screenOn callId userId => (startScreenShare st callId userId).1
  | .screenOff callId userId => (stopScreenShare st callId userId).1
  | .hangup callId userId now => (endCall st callId userId now).1

/-- Run a sequence of operations from the initial (empty) handler state. -/
def runCallOps (ops : List CallOp) : WebRTCState :=
  ops.foldl applyCallOp ⟨[], []⟩

/-- Number of active call sessions that list `userId` among their
participants. -/
def activeCallsOf (st : WebRTCState) (userId : String) : Nat :=
  (st.calls.filter
    (fun c => c.2.participants.any (fun p => p.userId == userId))).length

/-- The trace refuting the one-call-per-user invariant: X calls Y, Z calls X,
and X accepts Z's call while X's own outgoing call is still active. -/
def c3Trace : List CallOp :=
  [ .init "X" "Xavier" "Y" CallType.AUDIO false "c1" 10
  , .init "Z" "Zoe" "X" CallType.AUDIO false "c2" 11
  , .accept "c2" "X" ]

/-! ### Connection registry and broadcast router
    (src/websocket/websocket_server.cpp).  A connection is keyed by its
    `void* ws` pointer, modelled as a `Nat`; `connections_` is the registry
    map, modelled as a list in iteration order. -/

/-- `WebSocketServer::ConnectionState` (websocket_server.h). -/
structure ConnectionState where
  sessionId : String
  userId : String
  username : String
  currentRoom : String
  authenticated : Bool
  connectedAt : Nat
deriving DecidableEq

abbrev Connections := List (Nat × ConnectionState)

/-- The connection keys `WebSocketServer::sendToUser` delivers to: the loop
sends to the first authenticated connection whose user id matches and then
returns. -/
def sendToUserRecipients (conns : Connections) (userId : String) : List Nat :=
  match conns.find? (fun c => c.2.authenticated && c.2.userId == userId) with
  | some c => [c.1]
  | none => []

/-- `sendToUser`'s "User not found or not connected" log: the loop fell
through without a match. -/
def sendToUserMiss (conns : Connections) (userId : String) : Bool :=
  (conns.find? (fun c => c.2.authenticated && c.2.userId == userId)).isNone

/-- The `for (const auto& memberId : roomMembers)` membership loop inside
`broadcastToRoom`. -/
def roomMemberLoop : List String → String → Bool
  | [], _ => false
  | m :: ms, userId => if m = userId then true else roomMemberLoop ms userId

/-- The connection keys `WebSocketServer::broadcastToRoom` delivers to.
`roomMembers` is the list `dbClient_->getRoomMembers(roomId)` returned
(empty when the lookup threw). -/
def broadcastToRoom (conns : Connections) (roomMembers : List String)
    (roomId excludeUserId : String) : List Nat :=
  if roomId = "global" then
    (conns.filter
      (fun c => c.2.authenticated && c.2.userId != excludeUserId)).map Prod.fst
  else
    (conns.filter
      (fun c => c.2.authenticated && c.2.userId != excludeUserId &&
        (roomMemberLoop roomMembers c.2.userId ||
         c.2.currentRoom == roomId))).map Prod.fst

/-! ### Message dispatch for an unauthenticated connection
    (the `.message` lambda of `WebSocketServer::run`). -/

/-- What the dispatch switch sends back to the originating connection when
`data->authenticated` is false. -/
inductive PreAuthReply
  | handled               -- processed regardless of authentication
  | silent                -- `if (data->authenticated)` with no else branch
  | err (message : String) -- `sendErrorJson(ws, message)`
deriving DecidableEq

/-- The `type` if-else chain of the message handler, restricted to an
unauthenticated connection.  `hasGemini` is whether `geminiClient_` is
non-null. -/
def preAuthDispatch (hasGemini : Bool) (ty : String) : PreAuthReply :=
  if ty = "register" then .handled
  else if ty = "login" then .handled
  else if ty = "auth" then .handled
  else if ty = "chat" then .err "Not authenticated"
  else if ty = "typing" then .silent
  else if ty = "get_online_users" then .silent
  else if ty = "edit_message" then .err "Not authenticated"
  else if ty = "delete_message" then .err "Not authenticated"
  else if ty = "add_reaction" then .silent
  else if ty = "pin_message" then .silent
  else if ty = "unpin_message" then .silent
  else if ty = "reply_message" then .silent
  else if ty = "create_room" then .err "Not authenticated"
  else if ty = "join_room" then .err "Not authenticated"
  else if ty = "leave_room" then .err "Not authenticated"
  else if ty = "get_rooms" then .err "Not authenticated"
  else if ty = "search_messages" then .err "Not authenticated"
  else if ty = "mark_read" then .err "Not authenticated"
  else if ty = "ping" then .handled
  else if ty = "call_init" then .err "Not authenticated"
  else if ty = "call_accept" then .err "Not authenticated"
  else if ty = "call_reject" then .err "Not authenticated"
  else if ty = "call_end" then .err "Not authenticated"
  else if ty = "webrtc_offer" then .silent
  else if ty = "webrtc_answer" then .silent
  else if ty = "webrtc_ice" then .silent
  else if ty = "presence_update" then .silent
  else if ty = "profile_update" then .err "Not authenticated"
  else if ty = "change_password" then .err "Not authenticated"
  else if ty = "ai_request" then
    (if !hasGemini then .err "AI service not available"
     else .err "Not authenticated")
  else if ty = "poll_create" then .silent
  else if ty = "poll_vote" then .silent
  else if ty = "poll_close" then .silent
  else if ty = "get_room_polls" then .silent
  else if ty = "game_invite" then .silent
  else if ty = "game_accept" then .silent
  else if ty = "game_reject" then .silent
  else if ty = "game_move" then .silent
  else if ty = "watch_create" then .silent
  else if ty = "watch_sync" then .silent
  else if ty = "watch_end" then .silent
  else if ty = "upload_init" then .err "Not authenticated"
  else if ty = "upload_chunk" then .err "Not authenticated"
  else if ty = "upload_finalize" then .err "Not authenticated"
  else if ty = "forward_message" then .err "Not authenticated"
  else if ty = "user_block" then .err "Not authenticated"
  else if ty = "user_unblock" then .err "Not authenticated"
  else if ty = "get_blocked_users" then .err "Not authenticated"
  else if ty = "kick_user" then .err "Not authenticated"
  else if ty = "invite_user" then .err "Not authenticated"
  else if ty = "chat_sticker" then .err "Not authenticated"
  else if ty = "chat_location" then .err "Not authenticated"
  else .err "Unknown message type"

/-- Every message kind the dispatch chain recognizes, in chain order. -/
def knownFrameTypes : List String :=
  [ "register", "login", "auth", "chat", "typing", "get_online_users"
  , "edit_message", "delete_message", "add_reaction", "pin_message"
  , "unpin_message", "reply_message", "create_room", "join_room"
  , "leave_room", "get_rooms", "search_messages", "mark_read", "ping"
  , "call_init", "call_accept", "call_reject", "call_end", "webrtc_offer"
  , "webrtc_answer", "webrtc_ice", "presence_update", "profile_update"
  , "change_password", "ai_request", "poll_create", "poll_vote", "poll_close"
  , "get_room_polls", "game_invite", "game_accept", "game_reject", "game_move"
  , "watch_create", "watch_sync", "watch_end", "upload_init", "upload_chunk"
  , "upload_finalize", "forward_message", "user_block", "user_unblock"
  , "get_blocked_users", "kick_user", "invite_user", "chat_sticker"
  , "chat_location" ]

/-- Message kinds whose pre-auth reply is `error "Not authenticated"`. -/
def authErrFrameTypes : List String :=
  [ "chat", "edit_message", "delete_message", "create_room", "join_room"
  , "leave_room", "get_rooms", "search_messages", "mark_read", "call_init"
  , "call_accept", "call_reject", "call_end", "profile_update"
  , "change_password", "ai_request", "upload_init", "upload_chunk"
  , "upload_finalize", "forward_message", "user_block", "user_unblock"
  , "get_blocked_users", "kick_user", "invite_user", "chat_sticker"
  , "chat_location" ]

/-- Message kinds that are silently ignored before authentication. -/
def silentFrameTypes : List String :=
  [ "typing", "get_online_users", "add_reaction", "pin_message"
  , "unpin_message", "reply_message", "webrtc_offer", "webrtc_answer"
  , "webrtc_ice", "presence_update", "poll_create", "poll_vote", "poll_close"
  , "get_room_polls", "game_invite", "game_accept", "game_reject", "game_move"
  , "watch_create", "watch_sync", "watch_end" ]

/-! ### The `call_init` frame branch (websocket_server.cpp, authenticated
    dispatch).  It builds its own call id and frames and never calls into
    `WebRTCHandler`. -/

/-- An outbound JSON frame, as its list of key/value fields. -/
abbrev Frame := List (String × String)

inductive Outbound
  | toUser (userId : String) (frame : Frame)   -- `sendToUser(...)`
  | reply (frame : Frame)                      -- `sendJsonMessage(ws, ...)`
deriving DecidableEq

/-- The `call_init` branch for an authenticated connection.  `w` is the
`WebRTCHandler` state; the branch never touches it.  `now` models
`std::time(nullptr)`. -/
def handleCallInitFrame (w : WebRTCState)
    (userId username targetId callType : String) (now : Nat) :
    WebRTCState × List Outbound :=
  let callId := "call-" ++ toString now ++ "-" ++ userId.take 8
  (w,
   [ .toUser targetId
       [("type", "call_incoming"), ("callId", callId), ("callerId", userId),
        ("callerName", username), ("callType", callType)]
   , .reply
       [("type", "call_init_response"), ("success", "true"),
        ("callId", callId), ("message", "Calling " ++ targetId ++ "...")] ])

/-! ### Chunked upload pipeline (src/handlers/file_handler.cpp).
    `activeUploads` is the session map; the temporary chunk files written
    under each session's `tempDir` are modelled as a map from
    (tempDir, chunkIndex) to the decoded chunk bytes. -/

/-- `UploadSession` (file_handler.cpp). -/
structure UploadSession where
  uploadId : String
  fileName : String
  fileSize : Nat
  mimeType : String
  chunkSize : Nat
  totalChunks : Nat
  chunksReceived : Nat
  tempDir : String
  userId : String
  roomId : String
  createdAt : Nat
deriving DecidableEq

abbrev Bytes := List Nat

/-- `activeUploads` plus the relevant filesystem contents. -/
structure UploadState where
  activeUploads : List (String × UploadSession)
  chunkFiles : List ((String × Nat) × Bytes)   -- tempDir/chunk_<i> → bytes
  finalFiles : List (String × Bytes)           -- uploads/<name> → bytes
deriving DecidableEq

/-- A reply frame of the upload pipeline. -/
inductive UploadReply
  | ready (uploadId : String) (chunkSize totalChunks : Nat)
  | progress (uploadId : String) (chunksReceived totalChunks progressPct : Nat)
  | complete (uploadId fileId : String) (isVoice : Bool)
  | uploadError (uploadId message : String)
deriving DecidableEq

/-- `FileHandler::handleUploadInit`.  The client may supply `uploadId`
(`generateFileId()` is the default, passed in by the caller of the model). -/
def handleUploadInit (st : UploadState) (uploadId fileName : String)
    (fileSize : Nat) (mimeType : String) (chunkSize totalChunks : Nat)
    (userId roomId : String) (now : Nat) : UploadState × UploadReply :=
  let tempDir := "./uploads/temp/" ++ uploadId
  let session : UploadSession :=
    { uploadId := uploadId
      fileName := fileName
      fileSize := fileSize
      mimeType := mimeType
      chunkSize := chunkSize
      totalChunks := totalChunks
      chunksReceived := 0
      tempDir := tempDir
      userId := userId
      roomId := roomId
      createdAt := now }
  ({ st with activeUploads := mapInsert uploadId session st.activeUploads },
   .ready uploadId chunkSize totalChunks)

/-- `FileHandler::handleUploadChunk`.  `chunkBytes` is the decoded Base64
payload; `totalChunksField` is the `totalChunks` field echoed from the
message.  `chunksReceived` is incremented on every accepted chunk,
whether or not the index was already written. -/
def handleUploadChunk (st : UploadState) (uploadId : String)
    (chunkIndex : Nat) (chunkBytes : Bytes) (totalChunksField : Nat)
    (userId : String) : UploadState × UploadReply :=
  if uploadId = "" then (st, .uploadError uploadId "Missing uploadId")
  else
    match lookupM uploadId st.activeUploads with
    | none => (st, .uploadError uploadId
        ("Upload session not found: " ++ uploadId))
    | some session =>
      if session.userId ≠ userId then
        (st, .uploadError uploadId "Unauthorized upload")
      else
        let session' :=
          { session with chunksReceived := session.chunksReceived + 1 }
        let progressPct := session'.chunksReceived * 100 / session.totalChunks
        ({ st with
            activeUploads := mapInsert uploadId session' st.activeUploads
            chunkFiles :=
              mapInsert (session.tempDir, chunkIndex) chunkBytes
                st.chunkFiles },
         .progress uploadId session'.chunksReceived totalChunksField
           progressPct)

/-- `FileHandler::getFileExtension`: the suffix from the last dot on, or
the empty string when there is no dot. -/
def getFileExtension (filename : String) : String :=
  let parts := filename.splitOn "."
  if parts.length ≤ 1 then "" else "." ++ parts.getLastD ""

/-- The assembly loop of `handleUploadFinalize`: read chunks `0..n-1` in
index order, failing at the first missing one. -/
def readChunks (files : List ((String × Nat) × Bytes)) (tempDir : String) :
    List Nat → Except String Bytes
  | [] => .ok []
  | i :: is =>
    match lookupM (tempDir, i) files with
    | none => .error ("Missing chunk: " ++ toString i)
    | some c =>
      match readChunks files tempDir is with
      | .error e => .error e
      | .ok rest => .ok (c ++ rest)

/-- The `catch` block of `handleUploadFinalize`: if the session is present,
remove its temp directory and the session itself. -/
def finalizeErrorCleanup (st : UploadState) (uploadId : String) :
    UploadState :=
  match lookupM uploadId st.activeUploads with
  | none => st
  | some session =>
    { st with
        activeUploads := mapErase uploadId st.activeUploads
        chunkFiles := st.chunkFiles.filter (fun f => f.1.1 ≠ session.tempDir) }

/-- `FileHandler::handleUploadFinalize`.  `fileId` stands for the generated
`generateFileId()`.  Every error path runs `finalizeErrorCleanup`. -/
def handleUploadFinalize (st : UploadState) (uploadId userId fileId : String) :
    UploadState × UploadReply :=
  if uploadId = "" then
    (finalizeErrorCleanup st uploadId, .uploadError uploadId "Missing uploadId")
  else
    match lookupM uploadId st.activeUploads with
    | none =>
      (finalizeErrorCleanup st uploadId,
       .uploadError uploadId "Upload session not found")
    | some session =>
      if session.userId ≠ userId then
        (finalizeErrorCleanup st uploadId, .uploadError uploadId "Unauthorized")
      else if session.chunksReceived ≠ session.totalChunks then
        (finalizeErrorCleanup st uploadId,
         .uploadError uploadId
           ("Missing chunks: " ++ toString session.chunksReceived ++ "/" ++
            toString session.totalChunks))
      else
        match readChunks st.chunkFiles session.tempDir
            (List.range session.totalChunks) with
        | .error e => (finalizeErrorCleanup st uploadId, .uploadError uploadId e)
        | .ok bytes =>
          let finalName := fileId ++ getFileExtension session.fileName
          ({ activeUploads := mapErase uploadId st.activeUploads
             chunkFiles :=
               st.chunkFiles.filter (fun f => f.1.1 ≠ session.tempDir)
             finalFiles :=
               mapInsert ("./uploads/" ++ finalName) bytes st.finalFiles },
           .complete uploadId fileId (session.mimeType.startsWith "audio/"))

/-! ### Server state and the transport-close handler
    (the `.close` lambda of `WebSocketServer::run`). -/

structure ServerState where
  connections : Connections
  uploads : UploadState
deriving DecidableEq

/-- The `.close` handler: broadcast an offline `presence_update` to every
other authenticated user's connections, then erase the connection.  It
performs no upload cleanup. -/
def closeHandler (st : ServerState) (wsKey : Nat) : ServerState × List Nat :=
  let notified :=
    match st.connections.find? (fun c => c.1 == wsKey) with
    | some c =>
      if c.2.authenticated then
        (st.connections.filter
          (fun d => d.2.authenticated && d.2.userId != c.2.userId)).map
          Prod.fst
      else []
    | none => []
  ({ st with connections := st.connections.filter (fun c => c.1 != wsKey) },
   notified)

/-! ### Concrete demo states used by the claim theorems below -/

/-- The state in which X called Y and Y accepted: session "c1" has the two
participants X and Y. -/
def c4State : WebRTCState :=
  runCallOps [ .init "X" "Xavier" "Y" CallType.VIDEO false "c1" 5
             , .accept "c1" "Y" ]

/-- The session stored under "c1" in `c4State`. -/
def c4Session : CallSession :=
  { callId := "c1", roomId := "", type := CallType.VIDEO
    state := CallState.CONNECTING, initiatorId := "X"
    participants := [⟨"X", true, true, false, false⟩,
                     ⟨"Y", true, true, false, false⟩]
    startedAt := 5, connectedAt := 0 }

/-- The state in which A's call "c7" to B is still ringing (CALLING). -/
def c7State : WebRTCState :=
  runCallOps [.init "A" "Ann" "B" CallType.AUDIO false "c7" 3]

/-- The session stored under "c7" in `c7State`. -/
def c7Session : CallSession :=
  { callId := "c7", roomId := "", type := CallType.AUDIO
    state := CallState.CALLING, initiatorId := "A"
    participants := [⟨"A", false, true, false, false⟩]
    startedAt := 3, connectedAt := 0 }

/-- The same call after B accepted: now CONNECTING. -/
def c7StateB : WebRTCState := (acceptCall c7State "c7" "B").1

/-- The session stored under "c7" in `c7StateB`. -/
def c7SessionB : CallSession :=
  { callId := "c7", roomId := "", type := CallType.AUDIO
    state := CallState.CONNECTING, initiatorId := "A"
    participants := [⟨"A", false, true, false, false⟩,
                     ⟨"B", false, true, false, false⟩]
    startedAt := 3, connectedAt := 0 }

/-- The state after A called B ("c8", at 100), B accepted and B's SDP
answer arrived at 150: the session is CONNECTED with connectedAt = 150. -/
def c8State : WebRTCState :=
  runCallOps [ .init "A" "Ann" "B" CallType.AUDIO false "c8" 100
             , .accept "c8" "B"
             , .answer "c8" "B" "A" "sdp" 150 ]

/-- The session stored under "c8" in `c8State`. -/
def c8Session : CallSession :=
  { callId := "c8", roomId := "", type := CallType.AUDIO
    state := CallState.CONNECTED, initiatorId := "A"
    participants := [⟨"A", false, true, false, false⟩,
                     ⟨"B", false, true, false, false⟩]
    startedAt := 100, connectedAt := 150 }

/-- Registry with two live authenticated connections of the same user. -/
def c1Conns : Connections :=
  [ (1, { sessionId := "s1", userId := "u", username := "Uma"
          currentRoom := "global", authenticated := true, connectedAt := 7 })
  , (2, { sessionId := "s2", userId := "u", username := "Uma"
          currentRoom := "global", authenticated := true, connectedAt := 9 }) ]

/-- Demo registry for the C6 witness: alice views room7, bob is a durable
member of it, carol is neither, dave is unauthenticated. -/
def c6Conns : Connections :=
  [ (1, { sessionId := "sa", userId := "alice", username := "Alice"
          currentRoom := "room7", authenticated := true, connectedAt := 1 })
  , (2, { sessionId := "sb", userId := "bob", username := "Bob"
          currentRoom := "lobby", authenticated := true, connectedAt := 2 })
  , (3, { sessionId := "sc", userId := "carol", username := "Carol"
          currentRoom := "lobby", authenticated := true, connectedAt := 3 })
  , (4, { sessionId := "sd", userId := "dave", username := "Dave"
          currentRoom := "", authenticated := false, connectedAt := 4 }) ]

/-- A WebRTC handler state in which user U already has an active call. -/
def c10State : WebRTCState :=
  runCallOps [.init "U" "Uma" "V" CallType.AUDIO false "c0" 1]

/-- C2 demo: an upload of 2 chunks; chunk index 0 is then sent twice. -/
def c2State1 : UploadState :=
  (handleUploadInit ⟨[], [], []⟩ "up1" "f.bin" 10 "application/o" 5 2
    "u" "global" 0).1

def c2State2 : UploadState :=
  (handleUploadChunk c2State1 "up1" 0 [1, 2, 3] 2 "u").1

def c2State3 : UploadState :=
  (handleUploadChunk c2State2 "up1" 0 [1, 2, 3] 2 "u").1

/-- The session stored under "up1" in `c2State2`. -/
def c2Session1 : UploadSession :=
  { uploadId := "up1", fileName := "f.bin", fileSize := 10
    mimeType := "application/o", chunkSize := 5, totalChunks := 2
    chunksReceived := 1, tempDir := "./uploads/temp/up1", userId := "u"
    roomId := "global", createdAt := 0 }

/-- The state after the two distinct chunks 0 and 1 were each sent once. -/
def c2StateG : UploadState :=
  (handleUploadChunk c2State2 "up1" 1 [4] 2 "u").1

/-- The session stored under "up1" in `c2StateG`. -/
def c2SessionG : UploadSession :=
  { c2Session1 with chunksReceived := 2 }

/-- Server with one authenticated connection of user "u" and the in-flight
upload "up1" (one chunk received out of two). -/
def c5Server : ServerState :=
  { connections :=
      [(1, { sessionId := "s1", userId := "u", username := "Uma"
             currentRoom := "global", authenticated := true
             connectedAt := 0 })]
    uploads := c2State2 }

/-! ## Theorems -/

/-! ### Association-list map lemmas -/

theorem lookupM_mapErase_self {κ α : Type} [DecidableEq κ] (k : κ)
    (m : List (κ × α)) : lookupM k (mapErase k m) = none := by
  induction m with
  | nil => rfl
  | cons p m ih =>
    by_cases hk : p.1 = k
    · simp [mapErase, hk, ih]
    · simp [mapErase, hk, lookupM, ih]

theorem lookupM_mapErase_ne {κ α : Type} [DecidableEq κ] {k k' : κ}
    (h : k' ≠ k) (m : List (κ × α)) :
    lookupM k' (mapErase k m) = lookupM k' m := by
  induction m with
  | nil => rfl
  | cons p m ih =>
    by_cases hk : p.1 = k
    · simp [mapErase, hk, lookupM, ih, Ne.symm h]
    · simp [mapErase, hk, lookupM, ih]

theorem lookupM_mapInsert_self {κ α : Type} [DecidableEq κ] (k : κ) (v : α)
    (m : List (κ × α)) : lookupM k (mapInsert k v m) = some v := by
  simp [mapInsert, lookupM]

theorem lookupM_mapInsert_ne {κ α : Type} [DecidableEq κ] {k k' : κ}
    (h : k' ≠ k) (v : α) (m : List (κ × α)) :
    lookupM k' (mapInsert k v m) = lookupM k' m := by
  simp [mapInsert, lookupM, Ne.symm h, lookupM_mapErase_ne h]

theorem lookupM_mapErase_none {κ α : Type} [DecidableEq κ] {u k : κ}
    {m : List (κ × α)} (h : lookupM u m = none) :
    lookupM u (mapErase k m) = none := by
  by_cases hk : u = k
  · subst hk; exact lookupM_mapErase_self u m
  · rw [lookupM_mapErase_ne hk]; exact h

theorem lookupM_foldl_erase_none (l : List Participant) (u : String)
    (m : List (String × String)) (h : lookupM u m = none) :
    lookupM u (l.foldl (fun acc p => mapErase p.userId acc) m) = none := by
  induction l generalizing m with
  | nil => exact h
  | cons p l ih => exact ih _ (lookupM_mapErase_none h)

theorem lookupM_foldl_erase_mem (l : List Participant) (u : String)
    (m : List (String × String)) (hm : ∃ p ∈ l, p.userId = u) :
    lookupM u (l.foldl (fun acc p => mapErase p.userId acc) m) = none := by
  induction l generalizing m with
  | nil => simp at hm
  | cons p l ih =>
    simp only [List.foldl_cons]
    by_cases hp : p.userId = u
    · have h0 : lookupM u (mapErase p.userId m) = none := by
        rw [hp]; exact lookupM_mapErase_self u m
      exact lookupM_foldl_erase_none l u _ h0
    · rcases hm with ⟨q, hq, hqu⟩
      rcases List.mem_cons.mp hq with rfl | hql
      · exact absurd hqu hp
      · exact ih _ ⟨q, hql, hqu⟩

/-! ### C3: one active call per user -/

/-- C3: the frozen claim — along every reachable sequence of call-signaling
operations each user participates in at most one active CallSession — is
false: `acceptCall` never consults the user→call index, so a user already
in a call can accept a second one (trace `c3Trace`). -/
theorem c3_counterexample :
    ¬ ∀ (ops : List CallOp) (userId : String),
        activeCallsOf (runCallOps ops) userId ≤ 1 := by
  intro h
  have h1 := h c3Trace "X"
  have h2 : activeCallsOf (runCallOps c3Trace) "X" = 2 := by decide
  omega

/-- C3 (amended): `initiateCall` does fail, with the already-in-call error
and no state change or signal, whenever the caller has a user→call index
entry; the global at-most-one-active-session invariant itself does not hold
because `acceptCall` performs no such check. -/
theorem c3_initiateCall_guard (st : WebRTCState)
    (callerId callerName targetId : String) (ty : CallType) (isGroup : Bool)
    (newCallId : String) (now : Nat)
    (h : (lookupM callerId st.userCalls).isSome) :
    initiateCall st callerId callerName targetId ty isGroup newCallId now
      = (st, [], CallResult.errAlreadyInCall) := by
  simp [initiateCall, h]

/-- C3 witness: after X starts a call, a second `initiateCall` by X fails. -/
theorem c3_initiateCall_guard_witness :
    ((lookupM "X"
        (runCallOps [CallOp.init "X" "Xavier" "Y" CallType.AUDIO false "c1" 10]
          ).userCalls).isSome = true)
    ∧ initiateCall
        (runCallOps [CallOp.init "X" "Xavier" "Y" CallType.AUDIO false "c1" 10])
        "X" "Xavier" "W" CallType.VIDEO false "c9" 20
      = (runCallOps [CallOp.init "X" "Xavier" "Y" CallType.AUDIO false "c1" 10],
         [], CallResult.errAlreadyInCall) :=
  ⟨by decide,
   c3_initiateCall_guard
     (runCallOps [CallOp.init "X" "Xavier" "Y" CallType.AUDIO false "c1" 10])
     "X" "Xavier" "W" CallType.VIDEO false "c9" 20 (by decide)⟩

/-! ### C4: rejectCall cleanup -/

/-- C4: the frozen claim is false — Y is a current participant of session
"c1", yet after `rejectCall` Y's user→call index entry survives (only the
initiator's entry is erased). -/
theorem c4_counterexample :
    ((lookupM "c1" c4State.calls).map
        (fun s => s.participants.map Participant.userId) = some ["X", "Y"])
    ∧ lookupM "Y" (rejectCall c4State "c1" "Y" "declined").1.userCalls
        = some "c1" := by
  decide

/-- C4 (amended): `rejectCall` on an existing session (any non-terminal
state) relays "rejected" to the initiator and deletes the session, but
clears only the initiator's user→call index entry; every other user's
entry is left unchanged. -/
theorem c4_rejectCall_spec (st : WebRTCState) (callId userId reason : String)
    (session : CallSession) (h : lookupM callId st.calls = some session) :
    rejectCall st callId userId reason
      = ({ calls := mapErase callId st.calls
           userCalls := mapErase session.initiatorId st.userCalls },
         [⟨session.initiatorId, .callRejected callId userId reason⟩],
         CallResult.ok)
    ∧ lookupM callId (rejectCall st callId userId reason).1.calls = none
    ∧ lookupM session.initiatorId
        (rejectCall st callId userId reason).1.userCalls = none
    ∧ (∀ u, u ≠ session.initiatorId →
        lookupM u (rejectCall st callId userId reason).1.userCalls
          = lookupM u st.userCalls) := by
  refine ⟨by simp [rejectCall, h], ?_, ?_, ?_⟩
  · simp [rejectCall, h, lookupM_mapErase_self]
  · simp [rejectCall, h, lookupM_mapErase_self]
  · intro u hu
    simp [rejectCall, h, lookupM_mapErase_ne hu]

/-- C4 witness: on the concrete two-participant session, rejecting clears
the initiator X's index entry. -/
theorem c4_rejectCall_spec_witness :
    lookupM "c1" c4State.calls = some c4Session
    ∧ lookupM "X" (rejectCall c4State "c1" "Y" "declined").1.userCalls
        = none :=
  ⟨by decide,
   (c4_rejectCall_spec c4State "c1" "Y" "declined" c4Session (by decide)).2.2.1⟩

/-! ### C7: acceptCall state guard -/

/-- C7: `acceptCall` on an existing session not in CALLING fails with the
invalid-state error and leaves the whole handler state (participants
included) unchanged; from CALLING it appends the acceptor as a Participant,
moves the session to CONNECTING and relays "accepted" to the initiator. -/
theorem c7_acceptCall_spec (st : WebRTCState) (callId userId : String)
    (session : CallSession) (h : lookupM callId st.calls = some session) :
    (session.state ≠ CallState.CALLING →
      acceptCall st callId userId = (st, [], CallResult.errInvalidState))
    ∧ (session.state = CallState.CALLING →
      acceptCall st callId userId
        = ({ calls := mapInsert callId
               ({ session with
                    participants := session.participants ++
                      [{ userId := userId
                         hasVideo := session.type = CallType.VIDEO
                         hasAudio := true
                         isMuted := false
                         isScreenSharing := false }]
                    state := CallState.CONNECTING }) st.calls
             userCalls := mapInsert userId callId st.userCalls },
           [⟨session.initiatorId, .callAccepted callId userId⟩],
           CallResult.ok)) := by
  constructor
  · intro hs; simp [acceptCall, h, hs]
  · intro hs; simp [acceptCall, h, hs]

/-- C7 witness: B accepting the ringing call succeeds and relays
"accepted" to A; a second accept, now from CONNECTING, fails and leaves
the state untouched. -/
theorem c7_acceptCall_spec_witness :
    acceptCall c7State "c7" "B"
      = ({ calls := mapInsert "c7"
             ({ c7Session with
                  participants := c7Session.participants ++
                    [{ userId := "B"
                       hasVideo := c7Session.type = CallType.VIDEO
                       hasAudio := true
                       isMuted := false
                       isScreenSharing := false }]
                  state := CallState.CONNECTING }) c7State.calls
           userCalls := mapInsert "B" "c7" c7State.userCalls },
         [⟨c7Session.initiatorId, .callAccepted "c7" "B"⟩],
         CallResult.ok)
    ∧ acceptCall c7StateB "c7" "Z"
        = (c7StateB, [], CallResult.errInvalidState) :=
  ⟨(c7_acceptCall_spec c7State "c7" "B" c7Session (by decide)).2 (by decide),
   (c7_acceptCall_spec c7StateB "c7" "Z" c7SessionB (by decide)).1 (by decide)⟩

/-! ### C8: endCall duration and cleanup -/

/-- C8: on an existing session, with a monotone 64-bit clock, the duration
`endCall` reports is `0` when connected-at was never stamped and
`now - connectedAt` otherwise; the "ended" signal carrying that duration
goes to every other participant; the session and every participant's
user→call index entry are removed; and `sendAnswer` on an existing session
moves it to CONNECTED and stamps connected-at. -/
theorem c8_endCall_duration_spec (st : WebRTCState) (callId userId : String)
    (now : Nat) (session : CallSession)
    (h : lookupM callId st.calls = some session)
    (hle : session.connectedAt ≤ now) (hnow : now < 2 ^ 64) :
    endCallDuration session.connectedAt now
      = (if session.connectedAt = 0 then 0 else now - session.connectedAt)
    ∧ (endCall st callId userId now).2.1
      = (session.participants.filter (fun p => p.userId ≠ userId)).map
          (fun p => (⟨p.userId,
            .callEnded callId userId
              (endCallDuration session.connectedAt now)⟩ : Signal))
    ∧ lookupM callId (endCall st callId userId now).1.calls = none
    ∧ (∀ p ∈ session.participants,
        lookupM p.userId (endCall st callId userId now).1.userCalls = none)
    ∧ (∀ fromUserId toUserId sdp,
        lookupM callId
          ((sendAnswer st callId fromUserId toUserId sdp now).1).calls
          = some { session with
                     state := CallState.CONNECTED, connectedAt := now }) := by
  refine ⟨?_, ?_, ?_, ?_, ?_⟩
  · unfold endCallDuration
    by_cases hc : session.connectedAt = 0
    · simp [hc]
    · rw [if_pos (Nat.pos_of_ne_zero hc), if_neg hc]
      omega
  · simp [endCall, h]
  · simp [endCall, h, lookupM_mapErase_self]
  · intro p hp
    simp only [endCall, h]
    exact lookupM_foldl_erase_mem _ _ _ ⟨p, hp, rfl⟩
  · intro fromUserId toUserId sdp
    simp [sendAnswer, h, lookupM_mapInsert_self]

/-- C8 witness: ending the connected call at 200 reports duration
200 − 150 and removes the session. -/
theorem c8_endCall_duration_spec_witness :
    endCallDuration c8Session.connectedAt 200
      = (if c8Session.connectedAt = 0 then 0 else 200 - c8Session.connectedAt)
    ∧ lookupM "c8" (endCall c8State "c8" "A" 200).1.calls = none :=
  ⟨(c8_endCall_duration_spec c8State "c8" "A" 200 c8Session (by decide)
      (by decide) (by decide)).1,
   (c8_endCall_duration_spec c8State "c8" "A" 200 c8Session (by decide)
      (by decide) (by decide)).2.2.1⟩

/-! ### C1: sendToUser fan-out -/

/-- C1: the frozen claim is false — with two live authenticated connections
of user "u", `sendToUser` delivers to the first match only and returns;
connection 2 never receives the payload. -/
theorem c1_counterexample :
    sendToUserRecipients c1Conns "u" = [1]
    ∧ ((c1Conns.filter
          (fun c => c.2.authenticated && c.2.userId == "u")).map Prod.fst
        = [1, 2])
    ∧ 2 ∉ sendToUserRecipients c1Conns "u" := by
  decide

/-- C1 (amended): `sendToUser` delivers to at most one connection — an
authenticated connection of that user — and delivers to none (logging the
miss) exactly when the user has no live authenticated connection. -/
theorem c1_sendToUser_spec (conns : Connections) (userId : String) :
    (sendToUserRecipients conns userId).length ≤ 1
    ∧ (∀ k ∈ sendToUserRecipients conns userId,
        ∃ st, (k, st) ∈ conns ∧ st.authenticated = true ∧ st.userId = userId)
    ∧ (sendToUserRecipients conns userId = []
        ↔ ∀ k st, (k, st) ∈ conns → st.authenticated = true →
            st.userId ≠ userId)
    ∧ (sendToUserMiss conns userId = true
        ↔ sendToUserRecipients conns userId = []) := by
  refine ⟨?_, ?_, ?_, ?_⟩
  · unfold sendToUserRecipients
    cases h : conns.find? (fun c => c.2.authenticated && c.2.userId == userId)
      <;> simp
  · intro k hk
    unfold sendToUserRecipients at hk
    cases h : conns.find? (fun c => c.2.authenticated && c.2.userId == userId)
      with
    | none => rw [h] at hk; simp at hk
    | some c =>
      rw [h] at hk
      simp only [List.mem_singleton] at hk
      subst hk
      have hmem := List.mem_of_find?_eq_some h
      have hp := List.find?_some h
      simp only [Bool.and_eq_true, beq_iff_eq] at hp
      exact ⟨c.2, by simpa using hmem, hp.1, hp.2⟩
  · unfold sendToUserRecipients
    cases h : conns.find? (fun c => c.2.authenticated && c.2.userId == userId)
      with
    | none =>
      simp only [h]
      constructor
      · intro _ k st hmem hauth
        have hnp := List.find?_eq_none.mp h (k, st) hmem
        simp only [Bool.and_eq_true, beq_iff_eq, not_and, hauth,
          forall_const] at hnp
        exact hnp
      · intro _; trivial
    | some c =>
      simp only [h]
      constructor
      · intro hco; simp at hco
      · intro hall
        exfalso
        have hmem := List.mem_of_find?_eq_some h
        have hp := List.find?_some h
        simp only [Bool.and_eq_true, beq_iff_eq] at hp
        exact hall c.1 c.2 (by simpa using hmem) hp.1 hp.2
  · unfold sendToUserMiss sendToUserRecipients
    cases h : conns.find? (fun c => c.2.authenticated && c.2.userId == userId)
      <;> simp [h]

/-- C1 witness: on a registry whose only connection belongs to another
user, `sendToUser "nobody"` selects no recipient and logs the miss. -/
theorem c1_sendToUser_spec_witness :
    (sendToUserRecipients c1Conns "nobody").length ≤ 1
    ∧ (sendToUserMiss c1Conns "nobody" = true
        ↔ sendToUserRecipients c1Conns "nobody" = []) :=
  ⟨(c1_sendToUser_spec c1Conns "nobody").1,
   (c1_sendToUser_spec c1Conns "nobody").2.2.2⟩

/-! ### C6: broadcastToRoom recipient set -/

theorem roomMemberLoop_iff (l : List String) (u : String) :
    roomMemberLoop l u = true ↔ u ∈ l := by
  induction l with
  | nil => simp [roomMemberLoop]
  | cons m ms ih =>
    by_cases h : m = u
    · simp [roomMemberLoop, h]
    · simp [roomMemberLoop, h, ih, Ne.symm h]

/-- C6: the recipient set of `broadcastToRoom`.  For "global" it is exactly
the authenticated connections of every user other than the excluded one;
otherwise exactly those whose user id is in the room's durable member set
or whose currentRoom hint equals the room, again excluding every connection
of the excluded user. -/
theorem c6_broadcastToRoom_spec (conns : Connections)
    (roomMembers : List String) (roomId excludeUserId : String) (k : Nat) :
    (roomId = "global" →
      (k ∈ broadcastToRoom conns roomMembers roomId excludeUserId
        ↔ ∃ st, (k, st) ∈ conns ∧ st.authenticated = true
            ∧ st.userId ≠ excludeUserId))
    ∧ (roomId ≠ "global" →
      (k ∈ broadcastToRoom conns roomMembers roomId excludeUserId
        ↔ ∃ st, (k, st) ∈ conns ∧ st.authenticated = true
            ∧ st.userId ≠ excludeUserId
            ∧ (st.userId ∈ roomMembers ∨ st.currentRoom = roomId))) := by
  constructor
  · intro hg
    subst hg
    simp only [broadcastToRoom, eq_self_iff_true, if_true, List.mem_map,
      List.mem_filter]
    constructor
    · rintro ⟨⟨k', st⟩, ⟨hmem, hp⟩, hfst⟩
      simp only at hfst
      subst hfst
      simp only [Bool.and_eq_true, bne_iff_ne] at hp
      exact ⟨st, hmem, hp.1, hp.2⟩
    · rintro ⟨st, hmem, hauth, hne⟩
      exact ⟨(k, st), ⟨hmem, by simp [hauth, hne]⟩, rfl⟩
  · intro hg
    simp only [broadcastToRoom, if_neg hg, List.mem_map, List.mem_filter]
    constructor
    · rintro ⟨⟨k', st⟩, ⟨hmem, hp⟩, hfst⟩
      simp only at hfst
      subst hfst
      simp only [Bool.and_eq_true, bne_iff_ne, Bool.or_eq_true, beq_iff_eq,
        roomMemberLoop_iff] at hp
      exact ⟨st, hmem, hp.1.1, hp.1.2, hp.2⟩
    · rintro ⟨st, hmem, hauth, hne, hsend⟩
      refine ⟨(k, st), ⟨hmem, ?_⟩, rfl⟩
      simp only [Bool.and_eq_true, bne_iff_ne, Bool.or_eq_true, beq_iff_eq,
        roomMemberLoop_iff]
      exact ⟨⟨hauth, hne⟩, hsend⟩

/-- C6 witness: in room7 (members = {bob}) connection 1 is reached via the
currentRoom hint and connection 2 via durable membership; in "global" with
bob excluded, connection 1 is reached. -/
theorem c6_broadcastToRoom_spec_witness :
    (∃ st, (1, st) ∈ c6Conns ∧ st.authenticated = true ∧ st.userId ≠ ""
        ∧ (st.userId ∈ ["bob"] ∨ st.currentRoom = "room7"))
    ∧ (∃ st, (2, st) ∈ c6Conns ∧ st.authenticated = true ∧ st.userId ≠ ""
        ∧ (st.userId ∈ ["bob"] ∨ st.currentRoom = "room7"))
    ∧ (∃ st, (1, st) ∈ c6Conns ∧ st.authenticated = true
        ∧ st.userId ≠ "bob") :=
  ⟨((c6_broadcastToRoom_spec c6Conns ["bob"] "room7" "" 1).2
      (by decide)).mp (by decide),
   ((c6_broadcastToRoom_spec c6Conns ["bob"] "room7" "" 2).2
      (by decide)).mp (by decide),
   ((c6_broadcastToRoom_spec c6Conns ["bob"] "global" "bob" 1).1
      rfl).mp (by decide)⟩

/-! ### C9: unknown kinds and pre-auth errors -/

/-- C9: the frozen claim is false — "typing", "get_online_users" and the
webrtc relay kinds require authentication, yet before auth the dispatch
silently drops them instead of replying error "Not authenticated". -/
theorem c9_counterexample :
    preAuthDispatch true "typing" = PreAuthReply.silent
    ∧ preAuthDispatch true "get_online_users" = PreAuthReply.silent
    ∧ preAuthDispatch true "webrtc_offer" = PreAuthReply.silent
    ∧ preAuthDispatch true "typing" ≠ PreAuthReply.err "Not authenticated" := by
  decide

/-- Per-kind evaluations of the pre-auth dispatch, one declaration each
so the kernel can discard its evaluation cache between them. -/
theorem preAuthErr_chat :
    preAuthDispatch true "chat" = PreAuthReply.err "Not authenticated" := by
  decide

theorem preAuthErr_edit_message :
    preAuthDispatch true "edit_message" = PreAuthReply.err "Not authenticated" := by
  decide

theorem preAuthErr_delete_message :
    preAuthDispatch true "delete_message" = PreAuthReply.err "Not authenticated" := by
  decide

theorem preAuthErr_create_room :
    preAuthDispatch true "create_room" = PreAuthReply.err "Not authenticated" := by
  decide

theorem preAuthErr_join_room :
    preAuthDispatch true "join_room" = PreAuthReply.err "Not authenticated" := by
  decide

theorem preAuthErr_leave_room :
    preAuthDispatch true "leave_room" = PreAuthReply.err "Not authenticated" := by
  decide

theorem preAuthErr_get_rooms :
    preAuthDispatch true "get_rooms" = PreAuthReply.err "Not authenticated" := by
  decide

theorem preAuthErr_search_messages :
    preAuthDispatch true "search_messages" = PreAuthReply.err "Not authenticated" := by
  decide

theorem preAuthErr_mark_read :
    preAuthDispatch true "mark_read" = PreAuthReply.err "Not authenticated" := by
  decide

theorem preAuthErr_call_init :
    preAuthDispatch true "call_init" = PreAuthReply.err "Not authenticated" := by
  decide

theorem preAuthErr_call_accept :
    preAuthDispatch true "call_accept" = PreAuthReply.err "Not authenticated" := by
  decide

theorem preAuthErr_call_reject :
    preAuthDispatch true "call_reject" = PreAuthReply.err "Not authenticated" := by
  decide

theorem preAuthErr_call_end :
    preAuthDispatch true "call_end" = PreAuthReply.err "Not authenticated" := by
  decide

theorem preAuthErr_profile_update :
    preAuthDispatch true "profile_update" = PreAuthReply.err "Not authenticated" := by
  decide

theorem preAuthErr_change_password :
    preAuthDispatch true "change_password" = PreAuthReply.err "Not authenticated" := by
  decide

theorem preAuthErr_ai_request :
    preAuthDispatch true "ai_request" = PreAuthReply.err "Not authenticated" := by
  decide

theorem preAuthErr_upload_init :
    preAuthDispatch true "upload_init" = PreAuthReply.err "Not authenticated" := by
  decide

theorem preAuthErr_upload_chunk :
    preAuthDispatch true "upload_chunk" = PreAuthReply.err "Not authenticated" := by
  decide

theorem preAuthErr_upload_finalize :
    preAuthDispatch true "upload_finalize" = PreAuthReply.err "Not authenticated" := by
  decide

theorem preAuthErr_forward_message :
    preAuthDispatch true "forward_message" = PreAuthReply.err "Not authenticated" := by
  decide

theorem preAuthErr_user_block :
    preAuthDispatch true "user_block" = PreAuthReply.err "Not authenticated" := by
  decide

theorem preAuthErr_user_unblock :
    preAuthDispatch true "user_unblock" = PreAuthReply.err "Not authenticated" := by
  decide

theorem preAuthErr_get_blocked_users :
    preAuthDispatch true "get_blocked_users" = PreAuthReply.err "Not authenticated" := by
  decide

theorem preAuthErr_kick_user :
    preAuthDispatch true "kick_user" = PreAuthReply.err "Not authenticated" := by
  decide

theorem preAuthErr_invite_user :
    preAuthDispatch true "invite_user" = PreAuthReply.err "Not authenticated" := by
  decide

theorem preAuthErr_chat_sticker :
    preAuthDispatch true "chat_sticker" = PreAuthReply.err "Not authenticated" := by
  decide

theorem preAuthErr_chat_location :
    preAuthDispatch true "chat_location" = PreAuthReply.err "Not authenticated" := by
  decide

theorem preAuthSilent_typing :
    preAuthDispatch true "typing" = PreAuthReply.silent := by
  decide

theorem preAuthSilent_get_online_users :
    preAuthDispatch true "get_online_users" = PreAuthReply.silent := by
  decide

theorem preAuthSilent_add_reaction :
    preAuthDispatch true "add_reaction" = PreAuthReply.silent := by
  decide

theorem preAuthSilent_pin_message :
    preAuthDispatch true "pin_message" = PreAuthReply.silent := by
  decide

theorem preAuthSilent_unpin_message :
    preAuthDispatch true "unpin_message" = PreAuthReply.silent := by
  decide

theorem preAuthSilent_reply_message :
    preAuthDispatch true "reply_message" = PreAuthReply.silent := by
  decide

theorem preAuthSilent_webrtc_offer :
    preAuthDispatch true "webrtc_offer" = PreAuthReply.silent := by
  decide

theorem preAuthSilent_webrtc_answer :
    preAuthDispatch true "webrtc_answer" = PreAuthReply.silent := by
  decide

theorem preAuthSilent_webrtc_ice :
    preAuthDispatch true "webrtc_ice" = PreAuthReply.silent := by
  decide

theorem preAuthSilent_presence_update :
    preAuthDispatch true "presence_update" = PreAuthReply.silent := by
  decide

theorem preAuthSilent_poll_create :
    preAuthDispatch true "poll_create" = PreAuthReply.silent := by
  decide

theorem preAuthSilent_poll_vote :
    preAuthDispatch true "poll_vote" = PreAuthReply.silent := by
  decide

theorem preAuthSilent_poll_close :
    preAuthDispatch true "poll_close" = PreAuthReply.silent := by
  decide

theorem preAuthSilent_get_room_polls :
    preAuthDispatch true "get_room_polls" = PreAuthReply.silent := by
  decide

theorem preAuthSilent_game_invite :
    preAuthDispatch true "game_invite" = PreAuthReply.silent := by
  decide

theorem preAuthSilent_game_accept :
    preAuthDispatch true "game_accept" = PreAuthReply.silent := by
  decide

theorem preAuthSilent_game_reject :
    preAuthDispatch true "game_reject" = PreAuthReply.silent := by
  decide

theorem preAuthSilent_game_move :
    preAuthDispatch true "game_move" = PreAuthReply.silent := by
  decide

theorem preAuthSilent_watch_create :
    preAuthDispatch true "watch_create" = PreAuthReply.silent := by
  decide

theorem preAuthSilent_watch_sync :
    preAuthDispatch true "watch_sync" = PreAuthReply.silent := by
  decide

theorem preAuthSilent_watch_end :
    preAuthDispatch true "watch_end" = PreAuthReply.silent := by
  decide

theorem preAuthErr_all : ∀ t ∈ authErrFrameTypes,
    preAuthDispatch true t = PreAuthReply.err "Not authenticated" := by
  intro t ht
  simp only [authErrFrameTypes, List.mem_cons, List.not_mem_nil, or_false] at ht
  rcases ht with rfl | rfl | rfl | rfl | rfl | rfl | rfl | rfl | rfl | rfl | rfl | rfl | rfl | rfl | rfl | rfl | rfl | rfl | rfl | rfl | rfl | rfl | rfl | rfl | rfl | rfl | rfl
  exacts [preAuthErr_chat, preAuthErr_edit_message, preAuthErr_delete_message, preAuthErr_create_room, preAuthErr_join_room, preAuthErr_leave_room, preAuthErr_get_rooms, preAuthErr_search_messages, preAuthErr_mark_read, preAuthErr_call_init, preAuthErr_call_accept, preAuthErr_call_reject, preAuthErr_call_end, preAuthErr_profile_update, preAuthErr_change_password, preAuthErr_ai_request, preAuthErr_upload_init, preAuthErr_upload_chunk, preAuthErr_upload_finalize, preAuthErr_forward_message, preAuthErr_user_block, preAuthErr_user_unblock, preAuthErr_get_blocked_users, preAuthErr_kick_user, preAuthErr_invite_user, preAuthErr_chat_sticker, preAuthErr_chat_location]

theorem preAuthSilent_all : ∀ t ∈ silentFrameTypes,
    preAuthDispatch true t = PreAuthReply.silent := by
  intro t ht
  simp only [silentFrameTypes, List.mem_cons, List.not_mem_nil, or_false] at ht
  rcases ht with rfl | rfl | rfl | rfl | rfl | rfl | rfl | rfl | rfl | rfl | rfl | rfl | rfl | rfl | rfl | rfl | rfl | rfl | rfl | rfl | rfl
  exacts [preAuthSilent_typing, preAuthSilent_get_online_users, preAuthSilent_add_reaction, preAuthSilent_pin_message, preAuthSilent_unpin_message, preAuthSilent_reply_message, preAuthSilent_webrtc_offer, preAuthSilent_webrtc_answer, preAuthSilent_webrtc_ice, preAuthSilent_presence_update, preAuthSilent_poll_create, preAuthSilent_poll_vote, preAuthSilent_poll_close, preAuthSilent_get_room_polls, preAuthSilent_game_invite, preAuthSilent_game_accept, preAuthSilent_game_reject, preAuthSilent_game_move, preAuthSilent_watch_create, preAuthSilent_watch_sync, preAuthSilent_watch_end]


/-- C9 (amended): unrecognized kinds get the generic "Unknown message type"
error; before authentication the kinds of `authErrFrameTypes` (chat,
call_init, upload_chunk, ...) get error "Not authenticated", while the
kinds of `silentFrameTypes` (typing, get_online_users, the webrtc relays,
...) are silently dropped. -/
theorem c9_preAuthDispatch_spec (hasGemini : Bool) (ty : String)
    (hunk : ty ∉ knownFrameTypes) :
    preAuthDispatch hasGemini ty = PreAuthReply.err "Unknown message type"
    ∧ (∀ t ∈ authErrFrameTypes,
        preAuthDispatch true t = PreAuthReply.err "Not authenticated")
    ∧ (∀ t ∈ silentFrameTypes,
        preAuthDispatch true t = PreAuthReply.silent) := by
  refine ⟨?_, preAuthErr_all, preAuthSilent_all⟩
  have h := hunk
  simp only [knownFrameTypes, List.mem_cons, not_or, List.not_mem_nil,
    not_false_iff, and_true] at h
  simp [preAuthDispatch, h]

/-- C9 witness: a made-up kind gets the generic error; concrete checks of
both reply classes. -/
theorem c9_preAuthDispatch_spec_witness :
    preAuthDispatch true "definitely_not_a_kind"
      = PreAuthReply.err "Unknown message type"
    ∧ preAuthDispatch true "chat" = PreAuthReply.err "Not authenticated"
    ∧ preAuthDispatch true "webrtc_ice" = PreAuthReply.silent := by
  have hx := c9_preAuthDispatch_spec true "definitely_not_a_kind" (by decide)
  exact ⟨hx.1, hx.2.1 "chat" (by decide), hx.2.2 "webrtc_ice" (by decide)⟩

/-! ### C10: the call_init frame branch -/

/-- C10: the call_init frame handler always succeeds — it relays
call_incoming to the target under a freshly built call id and replies
call_init_response with success=true — and leaves the WebRTC call table
and user→call index unchanged; in particular, even when the sender already
has an active call (a state in which `initiateCall` itself fails), the
frame handler still succeeds, because it never invokes `initiateCall`. -/
theorem c10_handleCallInitFrame_spec (w : WebRTCState)
    (userId username targetId callType : String) (now : Nat) :
    (handleCallInitFrame w userId username targetId callType now).1 = w
    ∧ (handleCallInitFrame w userId username targetId callType now).2
      = [ .toUser targetId
            [("type", "call_incoming"),
             ("callId", "call-" ++ toString now ++ "-" ++ userId.take 8),
             ("callerId", userId), ("callerName", username),
             ("callType", callType)]
        , .reply
            [("type", "call_init_response"), ("success", "true"),
             ("callId", "call-" ++ toString now ++ "-" ++ userId.take 8),
             ("message", "Calling " ++ targetId ++ "...")] ]
    ∧ (∀ activeCallId, lookupM userId w.userCalls = some activeCallId →
        ∀ callerName ty isGroup newCallId nowH,
          initiateCall w userId callerName targetId ty isGroup newCallId nowH
            = (w, [], CallResult.errAlreadyInCall)) := by
  refine ⟨rfl, rfl, ?_⟩
  intro activeCallId hac callerName ty isGroup newCallId nowH
  simp [initiateCall, hac]

/-- C10 witness: with U already in call "c0", the frame handler leaves the
handler state alone while `initiateCall` would fail. -/
theorem c10_handleCallInitFrame_spec_witness :
    (handleCallInitFrame c10State "U" "Uma" "W" "video" 42).1 = c10State
    ∧ initiateCall c10State "U" "Uma" "W" CallType.VIDEO false "c9" 43
        = (c10State, [], CallResult.errAlreadyInCall) :=
  ⟨(c10_handleCallInitFrame_spec c10State "U" "Uma" "W" "video" 42).1,
   (c10_handleCallInitFrame_spec c10State "U" "Uma" "W" "video" 42).2.2
     "c0" (by decide) "Uma" CallType.VIDEO false "c9" 43⟩

/-! ### C2: chunk idempotency and finalize condition -/

theorem readChunks_ok_iff (files : List ((String × Nat) × Bytes)) (d : String)
    (l : List Nat) :
    (∃ b, readChunks files d l = Except.ok b)
      ↔ ∀ i ∈ l, (lookupM (d, i) files).isSome := by
  induction l with
  | nil => simp [readChunks]
  | cons i is ih =>
    constructor
    · rintro ⟨b, hb⟩
      intro j hj
      rcases List.mem_cons.mp hj with rfl | hjs
      · cases hf : lookupM (d, j) files with
        | none => rw [readChunks, hf] at hb; exact absurd hb (by simp)
        | some c => simp [hf]
      · cases hf : lookupM (d, i) files with
        | none => rw [readChunks, hf] at hb; exact absurd hb (by simp)
        | some c =>
          rw [readChunks, hf] at hb
          cases hr : readChunks files d is with
          | error e => rw [hr] at hb; exact absurd hb (by simp)
          | ok rest => exact ih.mp ⟨rest, hr⟩ j hjs
    · intro hall
      have hi : (lookupM (d, i) files).isSome :=
        hall i (List.mem_cons_self i is)
      rcases Option.isSome_iff_exists.mp hi with ⟨c, hc⟩
      have his : ∀ j ∈ is, (lookupM (d, j) files).isSome :=
        fun j hj => hall j (List.mem_cons_of_mem i hj)
      rcases ih.mpr his with ⟨rest, hrest⟩
      exact ⟨c ++ rest, by rw [readChunks, hc, hrest]⟩

/-- C2: the frozen claim is false — after sending chunk 0 twice (of 2
total), chunksReceived is 2, not 1: the duplicate was double-counted; and
finalize then fails with "Missing chunk: 1" although
chunksReceived = totalChunks, so the claimed iff fails too. -/
theorem c2_counterexample :
    ((lookupM "up1" c2State3.activeUploads).map
        (fun s => (s.chunksReceived, s.totalChunks)) = some (2, 2))
    ∧ (handleUploadFinalize c2State3 "up1" "u" "fid").2
        = UploadReply.uploadError "up1" "Missing chunk: 1" := by
  decide

/-- C2 (amended): re-sending chunk k overwrites the stored bytes for index
k, but chunksReceived is incremented on every accepted chunk, duplicates
included; finalize by the owner on an existing session succeeds iff
chunksReceived = totalChunks AND every chunk index 0..totalChunks−1 has a
stored chunk file. -/
theorem c2_upload_spec (st : UploadState) (uploadId : String)
    (chunkIndex : Nat) (bytes : Bytes) (tcf : Nat) (userId : String)
    (session : UploadSession)
    (h : lookupM uploadId st.activeUploads = some session)
    (hid : uploadId ≠ "") (hown : session.userId = userId) :
    (lookupM (session.tempDir, chunkIndex)
        (handleUploadChunk st uploadId chunkIndex bytes tcf userId
          ).1.chunkFiles = some bytes)
    ∧ ((lookupM uploadId
          (handleUploadChunk st uploadId chunkIndex bytes tcf userId
            ).1.activeUploads).map UploadSession.chunksReceived
        = some (session.chunksReceived + 1))
    ∧ (∀ fileId,
        ((handleUploadFinalize st uploadId userId fileId).2
            = UploadReply.complete uploadId fileId
                (session.mimeType.startsWith "audio/"))
          ↔ (session.chunksReceived = session.totalChunks
             ∧ ∀ i < session.totalChunks,
                 (lookupM (session.tempDir, i) st.chunkFiles).isSome)) := by
  refine ⟨?_, ?_, ?_⟩
  · simp [handleUploadChunk, hid, h, hown, lookupM_mapInsert_self]
  · simp [handleUploadChunk, hid, h, hown, lookupM_mapInsert_self]
  · intro fileId
    constructor
    · intro hc
      by_cases hcount : session.chunksReceived = session.totalChunks
      · refine ⟨hcount, ?_⟩
        intro i hi
        cases hr : readChunks st.chunkFiles session.tempDir
            (List.range session.totalChunks) with
        | error e =>
          exfalso
          have hrep : (handleUploadFinalize st uploadId userId fileId).2
              = UploadReply.uploadError uploadId e := by
            simp [handleUploadFinalize, hid, h, hown, hcount, hr]
          rw [hrep] at hc
          exact absurd hc (by simp)
        | ok bytes =>
          have hq := (readChunks_ok_iff st.chunkFiles session.tempDir
            (List.range session.totalChunks)).mp ⟨bytes, hr⟩
          exact hq i (List.mem_range.mpr hi)
      · exfalso
        have hrep : (handleUploadFinalize st uploadId userId fileId).2
            = UploadReply.uploadError uploadId
                ("Missing chunks: " ++ toString session.chunksReceived ++
                 "/" ++ toString session.totalChunks) := by
          simp [handleUploadFinalize, hid, h, hown, hcount]
        rw [hrep] at hc
        exact absurd hc (by simp)
    · rintro ⟨hcount, hall⟩
      have hmem : ∀ i ∈ List.range session.totalChunks,
          (lookupM (session.tempDir, i) st.chunkFiles).isSome :=
        fun i hi => hall i (List.mem_range.mp hi)
      rcases (readChunks_ok_iff st.chunkFiles session.tempDir
        (List.range session.totalChunks)).mpr hmem with ⟨b, hb⟩
      simp [handleUploadFinalize, hid, h, hown, hcount, hb]

/-- C2 witness: re-sending chunk 0 replaces its bytes and bumps the counter
to 2; finalize on the complete upload (chunks 0 and 1 present) succeeds. -/
theorem c2_upload_spec_witness :
    lookupM ("./uploads/temp/up1", 0)
        (handleUploadChunk c2State2 "up1" 0 [9, 9] 2 "u").1.chunkFiles
      = some [9, 9]
    ∧ (lookupM "up1"
        (handleUploadChunk c2State2 "up1" 0 [9, 9] 2 "u").1.activeUploads
          ).map UploadSession.chunksReceived = some 2
    ∧ (handleUploadFinalize c2StateG "up1" "u" "fid").2
        = UploadReply.complete "up1" "fid"
            (c2SessionG.mimeType.startsWith "audio/") :=
  ⟨(c2_upload_spec c2State2 "up1" 0 [9, 9] 2 "u" c2Session1
      (by decide) (by decide) (by decide)).1,
   (c2_upload_spec c2State2 "up1" 0 [9, 9] 2 "u" c2Session1
      (by decide) (by decide) (by decide)).2.1,
   ((c2_upload_spec c2StateG "up1" 0 [9, 9] 2 "u" c2SessionG
      (by decide) (by decide) (by decide)).2.2 "fid").mpr
     ⟨by decide, by decide⟩⟩

/-! ### C5: upload cleanup on exit paths -/

theorem lookupM_filter_tempDir {α : Type} (d : String) (i : Nat)
    (files : List ((String × Nat) × α)) :
    lookupM (d, i) (files.filter (fun f => f.1.1 ≠ d)) = none := by
  induction files with
  | nil => rfl
  | cons f fs ih =>
    obtain ⟨⟨fd, fi⟩, fv⟩ := f
    by_cases hf : fd = d
    · rw [List.filter_cons_of_neg (by simp [hf])]
      exact ih
    · rw [List.filter_cons_of_pos (by simp [hf])]
      have hne : (fd, fi) ≠ (d, i) := fun he => hf (congrArg Prod.fst he)
      simp only [lookupM]
      rw [if_neg hne]
      exact ih

/-- C5: the frozen claim is false — when the owning connection closes
mid-upload, the close handler removes the connection but deletes neither
the in-memory upload session nor its temp chunk file. -/
theorem c5_counterexample :
    (lookupM "up1" (closeHandler c5Server 1).1.uploads.activeUploads).isSome
      = true
    ∧ (lookupM ("./uploads/temp/up1", 0)
        (closeHandler c5Server 1).1.uploads.chunkFiles).isSome = true
    ∧ (closeHandler c5Server 1).1.connections = [] := by
  decide

/-- C5 (amended): whenever the session exists, finalize — successful or
failing for any reason — removes the in-memory session and every temp
chunk file of its directory; the transport close handler, however,
performs no upload cleanup at all (the upload state passes through
unchanged). -/
theorem c5_cleanup_spec (st : UploadState) (uploadId userId fileId : String)
    (session : UploadSession)
    (h : lookupM uploadId st.activeUploads = some session) :
    lookupM uploadId
        (handleUploadFinalize st uploadId userId fileId).1.activeUploads
      = none
    ∧ (∀ i, lookupM (session.tempDir, i)
        (handleUploadFinalize st uploadId userId fileId).1.chunkFiles = none)
    ∧ (∀ (srv : ServerState) (wsKey : Nat),
        (closeHandler srv wsKey).1.uploads = srv.uploads) := by
  have key : (handleUploadFinalize st uploadId userId fileId).1.activeUploads
        = mapErase uploadId st.activeUploads
      ∧ (handleUploadFinalize st uploadId userId fileId).1.chunkFiles
        = st.chunkFiles.filter (fun f => f.1.1 ≠ session.tempDir) := by
    by_cases hid : uploadId = ""
    · subst hid
      simp [handleUploadFinalize, finalizeErrorCleanup, h]
    · by_cases hown : session.userId = userId
      · by_cases hcount : session.chunksReceived = session.totalChunks
        · cases hr : readChunks st.chunkFiles session.tempDir
              (List.range session.totalChunks) with
          | error e =>
            simp [handleUploadFinalize, finalizeErrorCleanup, hid, h, hown,
              hcount, hr]
          | ok b =>
            simp [handleUploadFinalize, hid, h, hown, hcount, hr]
        · simp [handleUploadFinalize, finalizeErrorCleanup, hid, h, hown,
            hcount]
      · simp [handleUploadFinalize, finalizeErrorCleanup, hid, h, hown]
  refine ⟨?_, ?_, fun srv wsKey => rfl⟩
  · rw [key.1]; exact lookupM_mapErase_self _ _
  · intro i; rw [key.2]; exact lookupM_filter_tempDir _ _ _

/-- C5 witness: a failing finalize (only 1 of 2 chunks received) still
deletes the session and the stored chunk file. -/
theorem c5_cleanup_spec_witness :
    lookupM "up1"
        (handleUploadFinalize c2State2 "up1" "u" "fid").1.activeUploads
      = none
    ∧ lookupM ("./uploads/temp/up1", 0)
        (handleUploadFinalize c2State2 "up1" "u" "fid").1.chunkFiles = none :=
  ⟨(c5_cleanup_spec c2State2 "up1" "u" "fid" c2Session1 (by decide)).1,
   (c5_cleanup_spec c2State2 "up1" "u" "fid" c2Session1 (by decide)).2.1 0⟩
